import Mathlib

/-!
# Verification of the interrogation job/sub-task lifecycle engine

Shallow embedding of `src/horde/classes/stable/interrogation.py`:
the `State` enum, the `InterrogationsForms` sub-task entity with its
`pop` / `deliver` / `cancel` / `abort` / `is_stale` operations, and the
`Interrogation` parent job with `set_forms`, `get_status`,
`needs_interrogation` and `is_completed`.

Modelling conventions:
* wall-clock times are `Nat` (the code only compares and adds them);
* opaque JSON payloads/results are `Option String` (`none` = SQL NULL);
* Python exceptions are modelled with `Except PyError`; an operation
  that raises before its `db.session.commit()` leaves the persisted row
  unchanged, so the error constructor carries no mutated state;
* logging side effects that the spec talks about (worker-fault records,
  aborted-form log lines) are returned as explicit counters/traces.
-/

/-- Python exception kinds raised by the source module.  The payload is
the offending name, enough to identify the raise site. -/
inductive PyError where
  | nameError (n : String)
  | typeError (n : String)
  | attributeError (n : String)
deriving DecidableEq

/-- `class State(enum.Enum)` — the sub-task state enum (values 0..4). -/
inductive State where
  | WAITING
  | PROCESSING
  | DONE
  | CANCELLED
  | FAULTED
deriving DecidableEq

/-- `class WorkerExtended` (referenced, not owned): only its `id` is read
by this module (`pop` stores `worker.id`). -/
structure WorkerExtended where
  id : Nat
deriving DecidableEq

/-- `class InterrogationsForms(db.Model)` — one claimable sub-task row.
Column defaults (a freshly inserted row): `state = WAITING`,
`payload/result/worker_id = NULL`, `initiated/expiry = NULL`. -/
structure InterrogationsForms where
  id : Nat
  i_id : Nat
  name : String
  state : State
  payload : Option String
  result : Option String
  worker_id : Option Nat
  created : Nat
  initiated : Option Nat
  expiry : Option Nat
deriving DecidableEq

/-- The dict returned by a successful `pop`: exactly the form's `name`
and `payload` keys, nothing else. -/
structure PopPayload where
  name : String
  payload : Option String
deriving DecidableEq

/-- Modelled from the spec: `get_interrogation_form_expiry_date` lives in
`horde/utils.py`, which is not part of the provided sources.  The spec
says a claim sets "claim-expiry = now + configured TTL". -/
def get_interrogation_form_expiry_date (now ttl : Nat) : Nat :=
  now + ttl

/-- `InterrogationsForms.pop(worker)`: re-reads the row under
`SELECT ... FOR UPDATE` filtered on `state == WAITING`; if no row
matches, returns `None` and changes nothing.  Otherwise it sets
`state = PROCESSING` (commit), then `expiry`, `initiated = utcnow`,
`worker_id = worker.id` (commit) and returns `{name, payload}`.
The row lock makes the check-and-set one atomic step, so `pop` is a pure
state transformer here; `now`/`ttl` stand for `datetime.utcnow()` and
the configured form TTL. -/
def InterrogationsForms.pop (f : InterrogationsForms) (worker : WorkerExtended)
    (now ttl : Nat) : InterrogationsForms × Option PopPayload :=
  if f.state = State.WAITING then
    ({ f with
        state := State.PROCESSING
        expiry := some (get_interrogation_form_expiry_date now ttl)
        initiated := some now
        worker_id := some worker.id },
     some { name := f.name, payload := f.payload })
  else
    (f, none)

/-- `InterrogationsForms.record(kudos)`: after the worker-ledger call
(`self.worker.record_interrogation(...)`, an external collaborator) the
body evaluates `self.wp.things`, but `InterrogationsForms` defines no
attribute `wp`, so the call unconditionally raises `AttributeError`
(and even without that, `Interrogation.record_usage(self, kudos)` does
not accept the `raw_things` keyword it is passed). -/
def InterrogationsForms.record (_f : InterrogationsForms) (_kudos : Nat) :
    Except PyError Unit :=
  Except.error (PyError.attributeError "wp")

/-- `InterrogationsForms.deliver(result)`: if the state is not
`PROCESSING`, returns `0` kudos and changes nothing.  Otherwise the
source assigns `result` and `state = DONE` in memory and then evaluates
`self.record(things_per_sec, kudos)` — but `things_per_sec` is not
defined anywhere in the module (nor imported), so the argument lookup
raises `NameError` before `db.session.commit()` runs; the persisted row
is unchanged and no kudos value is returned. -/
def InterrogationsForms.deliver (f : InterrogationsForms) (_result : String) :
    Except PyError (InterrogationsForms × Nat) :=
  if f.state ≠ State.PROCESSING then
    Except.ok (f, 0)
  else
    Except.error (PyError.nameError "things_per_sec")

/-- `InterrogationsForms.cancel()`: same shape as `deliver` — non-
`PROCESSING` states return `0` kudos untouched; the `PROCESSING` branch
assigns `result = None`, `state = CANCELLED` in memory and then raises
the same `NameError` on `things_per_sec` before any commit. -/
def InterrogationsForms.cancel (f : InterrogationsForms) :
    Except PyError (InterrogationsForms × Nat) :=
  if f.state ≠ State.PROCESSING then
    Except.ok (f, 0)
  else
    Except.error (PyError.nameError "things_per_sec")

/-- Counters for the logging side effects of `abort`: calls to
`self.worker.log_aborted_job()` (the worker-fault record) and to
`self.log_aborted_interrogation()` (the aborted-form log line). -/
structure AbortLog where
  log_aborted_job : Nat
  log_aborted_interrogation : Nat
deriving DecidableEq

/-- `InterrogationsForms.abort()`: a no-op (returning `None`, no kudos)
unless the state is `PROCESSING`.  Otherwise it assigns
`state = FAULTED`, records the worker fault and the aborted-form log,
assigns `state = WAITING` and commits.  The third component is the
trace of the successive `self.state` assignments, which makes the
transient `FAULTED` step visible; `worker_id` is never cleared. -/
def InterrogationsForms.abort (f : InterrogationsForms) :
    InterrogationsForms × AbortLog × List State :=
  if f.state ≠ State.PROCESSING then
    (f, { log_aborted_job := 0, log_aborted_interrogation := 0 }, [])
  else
    ({ f with state := State.WAITING },
     { log_aborted_job := 1, log_aborted_interrogation := 1 },
     [State.FAULTED, State.WAITING])

/-- `InterrogationsForms.is_completed()`. -/
def InterrogationsForms.is_completed (f : InterrogationsForms) : Bool :=
  f.state = State.DONE

/-- `InterrogationsForms.is_FAULTED()`. -/
def InterrogationsForms.is_FAULTED (f : InterrogationsForms) : Bool :=
  f.state = State.FAULTED

/-- `InterrogationsForms.is_stale(ttl)`: returns `False` when the state
is in `[FAULTED, CANCELLED, DONE]`; otherwise evaluates
`datetime.utcnow() > self.expiry`.  When `expiry` is still NULL (its
column default — the form was never claimed) that comparison is
`datetime > None`, a `TypeError` in Python; the `ttl` parameter is
accepted but never used by the source. -/
def InterrogationsForms.is_stale (f : InterrogationsForms) (_ttl : Nat)
    (now : Nat) : Except PyError Bool :=
  if f.state = State.FAULTED ∨ f.state = State.CANCELLED ∨ f.state = State.DONE then
    Except.ok false
  else
    match f.expiry with
    | none => Except.error (PyError.typeError "unsupported comparison datetime > NoneType")
    | some e => Except.ok (decide (now > e))

/-- Serialization of N claim calls racing on one form: the
`with_for_update` row lock forces the N check-and-set steps into some
sequential order, so any concurrent execution is one of these
serializations (the worker list carries the serialization order). -/
def popAll (f : InterrogationsForms) (workers : List WorkerExtended)
    (now ttl : Nat) : InterrogationsForms × List (Option PopPayload) :=
  match workers with
  | [] => (f, [])
  | w :: ws =>
    let step := f.pop w now ttl
    let rest := popAll step.1 ws now ttl
    (rest.1, step.2 :: rest.2)

/-- `class Interrogation(db.Model)` — the parent job row. -/
structure Interrogation where
  id : Nat
  source_image : String
  user_id : Option Nat
  ipaddr : String
  safe_ip : Bool
  trusted_workers : Bool
  r2stored : Bool
  expiry : Nat
  created : Nat
  forms : List InterrogationsForms
deriving DecidableEq

/-- One requested form in the `forms` argument of `set_forms`: a dict
with a `"name"` key and an optional `"payload"` key. -/
structure FormRequest where
  name : String
  payload : Option String
deriving DecidableEq

/-- Loop body of `Interrogation.set_forms`: `seen_names` starts `[]` and
— exactly as in the source — is never appended to, so the
`form["name"] in seen_names` test can only skip a request if the caller
could somehow pre-populate `seen_names` (it cannot; the loop threads it
unchanged).  Fresh rows take the column defaults; database-assigned ids
are modelled by the running index `idx`. -/
def set_forms_go (i_id now : Nat) (seen_names : List String) (idx : Nat) :
    List FormRequest → List InterrogationsForms
  | [] => []
  | r :: rest =>
    if r.name ∈ seen_names then
      set_forms_go i_id now seen_names idx rest
    else
      { id := idx
        i_id := i_id
        name := r.name
        state := State.WAITING
        payload := r.payload
        result := none
        worker_id := none
        created := now
        initiated := none
        expiry := none } :: set_forms_go i_id now seen_names (idx + 1) rest

/-- `Interrogation.set_forms(forms)`: iterates the requests, intending
to drop duplicate names ("We don't allow the same interrogation type
twice") via `seen_names`, and adds one `InterrogationsForms` row per
surviving request. -/
def Interrogation.set_forms (j : Interrogation) (forms : List FormRequest)
    (now : Nat) : List InterrogationsForms :=
  set_forms_go j.id now [] 0 forms

/-- `Interrogation.needs_interrogation()`: the source iterates
`self.form`, but the relationship attribute is named `forms`;
`Interrogation` has no attribute `form`, so the generator raises
`AttributeError` unconditionally. -/
def Interrogation.needs_interrogation (_j : Interrogation) :
    Except PyError Bool :=
  Except.error (PyError.attributeError "form")

/-- `Interrogation.is_completed()`: the first statement evaluates
`self.FAULTED`, but `Interrogation` defines no attribute `FAULTED`
(no such column, relationship or method exists on the class), so the
call raises `AttributeError` before anything else runs. -/
def Interrogation.is_completed (_j : Interrogation) : Except PyError Bool :=
  Except.error (PyError.attributeError "FAULTED")

/-- One entry of the `"forms"` list returned by `get_status`: the
source emits `form.state.name`, i.e. the state itself (serialized by
name). -/
structure FormStatus where
  name : String
  state : State
  result : Option String
deriving DecidableEq

/-- The dict returned by `get_status`.  The source initializes
`ret_dict["state"]` to the enum member `State.WAITING` and overwrites it
with `State.X.name` strings in the three branches; both spellings denote
the state they name, so the field is a `State` here. -/
structure StatusDict where
  state : State
  forms : List FormStatus
deriving DecidableEq

/-- `Interrogation.get_status()`: one pass over `self.forms` computes
`all_faulted` (no form has state ≠ FAULTED), `all_done` and
`processing` exactly as the source's three loop flags, collects the
per-form dicts, then picks FAULTED / DONE / PROCESSING / default
WAITING in that order.  It mutates nothing. -/
def Interrogation.get_status (j : Interrogation) : StatusDict :=
  let all_faulted := j.forms.all fun f => decide (f.state = State.FAULTED)
  let all_done := j.forms.all fun f => decide (f.state = State.DONE)
  let processing := j.forms.any fun f => decide (f.state = State.PROCESSING)
  { state :=
      if all_faulted then State.FAULTED
      else if all_done then State.DONE
      else if processing then State.PROCESSING
      else State.WAITING
    forms := j.forms.map fun f =>
      { name := f.name, state := f.state, result := f.result } }

/-! ## Concrete fixtures used by witnesses and counterexamples -/

/-- A freshly created, never-claimed form: all nullable columns at their
defaults. -/
def freshForm : InterrogationsForms :=
  { id := 1, i_id := 7, name := "caption", state := State.WAITING
    payload := some "p", result := none, worker_id := none
    created := 0, initiated := none, expiry := none }

/-- A WAITING form that has been claimed before (e.g. returned to the
pool by `abort`): its `expiry` from the earlier claim is still set. -/
def recycledForm : InterrogationsForms :=
  { freshForm with expiry := some 5, initiated := some 0, worker_id := some 3 }

/-- A form mid-claim. -/
def processingForm : InterrogationsForms :=
  { freshForm with
      state := State.PROCESSING
      expiry := some 20
      initiated := some 10
      worker_id := some 3 }

/-- A delivered form. -/
def doneForm : InterrogationsForms :=
  { processingForm with state := State.DONE, result := some "r" }

/-- A cancelled form. -/
def cancelledForm : InterrogationsForms :=
  { processingForm with state := State.CANCELLED }

/-- A parent job holding the given forms; the scalar columns are
arbitrary fixed values. -/
def mkJob (forms : List InterrogationsForms) : Interrogation :=
  { id := 7, source_image := "img", user_id := some 1, ipaddr := ""
    safe_ip := false, trusted_workers := false, r2stored := false
    expiry := 100, created := 0, forms := forms }

/-- A form fixture in an arbitrary state, for status aggregation. -/
def stForm (s : State) : InterrogationsForms :=
  { freshForm with state := s }

/-! ## Helper lemmas -/

/-- A claim against a non-WAITING form soft-fails and leaves it as is. -/
lemma pop_of_not_waiting (f : InterrogationsForms) (w : WorkerExtended)
    (now ttl : Nat) (h : f.state ≠ State.WAITING) :
    f.pop w now ttl = (f, none) := by
  simp [InterrogationsForms.pop, h]

/-- Once a form is no longer WAITING, a whole batch of claim calls
soft-fails and leaves it as is. -/
lemma popAll_of_not_waiting (f : InterrogationsForms)
    (ws : List WorkerExtended) (now ttl : Nat)
    (h : f.state ≠ State.WAITING) :
    popAll f ws now ttl = (f, ws.map fun _ => none) := by
  induction ws with
  | nil => rfl
  | cons w ws ih => simp [popAll, pop_of_not_waiting f w now ttl h, ih]

/-- No element of an all-`none` result list counts as a success. -/
lemma countP_none_isSome (n : Nat) :
    ((List.replicate n (none : Option PopPayload)).countP
      fun o => o.isSome) = 0 := by
  induction n with
  | zero => rfl
  | succ n ih => simp [List.replicate_succ, List.countP_cons, ih]

/-- Every element of an all-`none` result list counts as "no work". -/
lemma countP_none_isNone (n : Nat) :
    ((List.replicate n (none : Option PopPayload)).countP
      fun o => o.isNone) = n := by
  induction n with
  | zero => rfl
  | succ n ih => simp [List.replicate_succ, List.countP_cons, ih]

/-! ## Claims -/

/-- C1: `pop` succeeds only on a WAITING form — in that case it moves the
form to PROCESSING, sets the worker reference, claim time `now` and
claim-expiry `now + ttl`, and returns exactly the task-type name and the
input payload; on any other state it returns `none` and leaves the form
unchanged. -/
theorem c1_pop_claims_only_waiting (f : InterrogationsForms)
    (w : WorkerExtended) (now ttl : Nat) :
    (f.state = State.WAITING →
      f.pop w now ttl =
        ({ f with
            state := State.PROCESSING
            expiry := some (now + ttl)
            initiated := some now
            worker_id := some w.id },
         some { name := f.name, payload := f.payload })) ∧
    (f.state ≠ State.WAITING → f.pop w now ttl = (f, none)) := by
  constructor <;> intro h <;>
    simp [InterrogationsForms.pop, get_interrogation_form_expiry_date, h]

theorem c1_pop_claims_only_waiting_witness :
    freshForm.pop ⟨3⟩ 10 5 =
      ({ freshForm with
          state := State.PROCESSING
          expiry := some 15
          initiated := some 10
          worker_id := some 3 },
       some { name := "caption", payload := some "p" }) ∧
    doneForm.pop ⟨3⟩ 10 5 = (doneForm, none) :=
  ⟨(c1_pop_claims_only_waiting freshForm ⟨3⟩ 10 5).1 rfl,
   (c1_pop_claims_only_waiting doneForm ⟨3⟩ 10 5).2 (by decide)⟩

/-- C2: the row lock serializes N racing claim calls into some order
(the worker list); starting from a WAITING form, exactly one call
returns a payload and the other N − 1 return "no work", and the form
ends PROCESSING with exactly the winner's worker reference set. -/
theorem c2_exactly_one_claim (f : InterrogationsForms) (w : WorkerExtended)
    (ws : List WorkerExtended) (now ttl : Nat)
    (h : f.state = State.WAITING) :
    (popAll f (w :: ws) now ttl).1.state = State.PROCESSING ∧
    (popAll f (w :: ws) now ttl).1.worker_id = some w.id ∧
    ((popAll f (w :: ws) now ttl).2.countP fun o => o.isSome) = 1 ∧
    ((popAll f (w :: ws) now ttl).2.countP fun o => o.isNone) =
      (w :: ws).length - 1 := by
  have hpop : f.pop w now ttl =
      ({ f with
          state := State.PROCESSING
          expiry := some (now + ttl)
          initiated := some now
          worker_id := some w.id },
       some { name := f.name, payload := f.payload }) := by
    simp [InterrogationsForms.pop, get_interrogation_form_expiry_date, h]
  have hrest := popAll_of_not_waiting
    { f with
        state := State.PROCESSING
        expiry := some (now + ttl)
        initiated := some now
        worker_id := some w.id } ws now ttl (by simp)
  refine ⟨?_, ?_, ?_, ?_⟩ <;>
    simp [popAll, hpop, hrest, List.countP_cons,
      countP_none_isSome, countP_none_isNone]

theorem c2_exactly_one_claim_witness :
    freshForm.state = State.WAITING ∧
    (popAll freshForm [⟨3⟩, ⟨4⟩, ⟨5⟩] 10 5).1.state = State.PROCESSING ∧
    (popAll freshForm [⟨3⟩, ⟨4⟩, ⟨5⟩] 10 5).1.worker_id = some 3 ∧
    ((popAll freshForm [⟨3⟩, ⟨4⟩, ⟨5⟩] 10 5).2.countP
      fun o => o.isSome) = 1 ∧
    ((popAll freshForm [⟨3⟩, ⟨4⟩, ⟨5⟩] 10 5).2.countP
      fun o => o.isNone) = 2 :=
  ⟨rfl,
   (c2_exactly_one_claim freshForm ⟨3⟩ [⟨4⟩, ⟨5⟩] 10 5 rfl).1,
   (c2_exactly_one_claim freshForm ⟨3⟩ [⟨4⟩, ⟨5⟩] 10 5 rfl).2.1,
   (c2_exactly_one_claim freshForm ⟨3⟩ [⟨4⟩, ⟨5⟩] 10 5 rfl).2.2.1,
   (c2_exactly_one_claim freshForm ⟨3⟩ [⟨4⟩, ⟨5⟩] 10 5 rfl).2.2.2⟩

/-- C3 (code bug): on a PROCESSING form `deliver` does not store the
result, transition to DONE and return 1 kudos — it raises `NameError`
on the undefined global `things_per_sec` before committing anything;
the non-PROCESSING branch does return 0 kudos as specified. -/
theorem c3_deliver_raises_on_processing :
    processingForm.deliver "r" =
      Except.error (PyError.nameError "things_per_sec") ∧
    freshForm.deliver "r" = Except.ok (freshForm, 0) :=
  ⟨rfl, rfl⟩

/-- C4: on a form already DONE or CANCELLED, `deliver`, `cancel` and
`abort` are no-ops: no error, 0 kudos, no fault logged, the form (state
and all other fields) unchanged. -/
theorem c4_terminal_noop (f : InterrogationsForms) (r : String)
    (h : f.state = State.DONE ∨ f.state = State.CANCELLED) :
    f.deliver r = Except.ok (f, 0) ∧
    f.cancel = Except.ok (f, 0) ∧
    f.abort = (f, { log_aborted_job := 0, log_aborted_interrogation := 0 },
               []) := by
  have hp : f.state ≠ State.PROCESSING := by
    rcases h with h | h <;> simp [h]
  exact ⟨by simp [InterrogationsForms.deliver, hp],
         by simp [InterrogationsForms.cancel, hp],
         by simp [InterrogationsForms.abort, hp]⟩

theorem c4_terminal_noop_witness :
    doneForm.deliver "x" = Except.ok (doneForm, 0) ∧
    doneForm.cancel = Except.ok (doneForm, 0) ∧
    doneForm.abort = (doneForm,
      { log_aborted_job := 0, log_aborted_interrogation := 0 }, []) :=
  c4_terminal_noop doneForm "x" (Or.inl rfl)

/-- C5 counterexample: a WAITING form whose old claim-expiry has passed
(e.g. one returned to the pool) IS reported stale, refuting "stale iff
state is PROCESSING and now past claim-expiry / a WAITING form is never
stale". -/
theorem c5_waiting_form_stale_counterexample :
    recycledForm.state = State.WAITING ∧
    recycledForm.is_stale 0 10 = Except.ok true :=
  ⟨rfl, rfl⟩

/-- C5 (amended): for a form whose claim-expiry is set, `is_stale` is
true iff the state is WAITING or PROCESSING (i.e. not FAULTED,
CANCELLED or DONE) and now is past the claim-expiry; terminal states
are indeed never stale, but WAITING forms can be. -/
theorem c5_is_stale_characterization (f : InterrogationsForms)
    (ttl now e : Nat) (h : f.expiry = some e) :
    f.is_stale ttl now = Except.ok true ↔
      (f.state = State.WAITING ∨ f.state = State.PROCESSING) ∧ e < now := by
  cases hs : f.state <;> simp [InterrogationsForms.is_stale, h, hs]

theorem c5_is_stale_characterization_witness :
    recycledForm.expiry = some 5 ∧
    recycledForm.is_stale 0 10 = Except.ok true :=
  ⟨rfl, (c5_is_stale_characterization recycledForm 0 10 5 rfl).mpr
    ⟨Or.inl rfl, by decide⟩⟩

/-- The aggregate-state component of `get_status`, written out. -/
lemma get_status_state (j : Interrogation) :
    j.get_status.state =
      if j.forms.all fun f => decide (f.state = State.FAULTED) then
        State.FAULTED
      else if j.forms.all fun f => decide (f.state = State.DONE) then
        State.DONE
      else if j.forms.any fun f => decide (f.state = State.PROCESSING) then
        State.PROCESSING
      else State.WAITING := rfl

/-- C6: for a job with a non-empty form list, `get_status` mutates
nothing (it is a pure function of the job) and derives the aggregate
state as: FAULTED if every form is FAULTED, else DONE if every form is
DONE, else PROCESSING if any form is PROCESSING, else WAITING; each form
is reported with its name, state and result; the four concrete
two-form cases of the claim are instances. -/
theorem c6_get_status_aggregation (j : Interrogation)
    (_hne : j.forms ≠ []) :
    ((∀ f ∈ j.forms, f.state = State.FAULTED) →
      j.get_status.state = State.FAULTED) ∧
    (¬ (∀ f ∈ j.forms, f.state = State.FAULTED) →
      (∀ f ∈ j.forms, f.state = State.DONE) →
      j.get_status.state = State.DONE) ∧
    (¬ (∀ f ∈ j.forms, f.state = State.FAULTED) →
      ¬ (∀ f ∈ j.forms, f.state = State.DONE) →
      (∃ f ∈ j.forms, f.state = State.PROCESSING) →
      j.get_status.state = State.PROCESSING) ∧
    (¬ (∀ f ∈ j.forms, f.state = State.FAULTED) →
      ¬ (∀ f ∈ j.forms, f.state = State.DONE) →
      ¬ (∃ f ∈ j.forms, f.state = State.PROCESSING) →
      j.get_status.state = State.WAITING) ∧
    j.get_status.forms = (j.forms.map fun f =>
      { name := f.name, state := f.state, result := f.result }) ∧
    (mkJob [stForm State.DONE, stForm State.DONE]).get_status.state =
      State.DONE ∧
    (mkJob [stForm State.FAULTED, stForm State.FAULTED]).get_status.state =
      State.FAULTED ∧
    (mkJob [stForm State.WAITING, stForm State.PROCESSING]).get_status.state =
      State.PROCESSING ∧
    (mkJob [stForm State.WAITING, stForm State.WAITING]).get_status.state =
      State.WAITING := by
  refine ⟨?_, ?_, ?_, ?_, rfl, by decide, by decide, by decide, by decide⟩
  · intro hf
    have b1 : (j.forms.all fun f => decide (f.state = State.FAULTED)) = true := by
      simpa [List.all_eq_true] using hf
    simp [get_status_state, b1]
  · intro hnf hd
    have b1 : (j.forms.all fun f => decide (f.state = State.FAULTED)) = false := by
      rw [← Bool.not_eq_true]
      simpa [List.all_eq_true] using hnf
    have b2 : (j.forms.all fun f => decide (f.state = State.DONE)) = true := by
      simpa [List.all_eq_true] using hd
    simp [get_status_state, b1, b2]
  · intro hnf hnd hp
    have b1 : (j.forms.all fun f => decide (f.state = State.FAULTED)) = false := by
      rw [← Bool.not_eq_true]
      simpa [List.all_eq_true] using hnf
    have b2 : (j.forms.all fun f => decide (f.state = State.DONE)) = false := by
      rw [← Bool.not_eq_true]
      simpa [List.all_eq_true] using hnd
    have b3 : (j.forms.any fun f => decide (f.state = State.PROCESSING)) = true := by
      simpa [List.any_eq_true] using hp
    simp [get_status_state, b1, b2, b3]
  · intro hnf hnd hnp
    have b1 : (j.forms.all fun f => decide (f.state = State.FAULTED)) = false := by
      rw [← Bool.not_eq_true]
      simpa [List.all_eq_true] using hnf
    have b2 : (j.forms.all fun f => decide (f.state = State.DONE)) = false := by
      rw [← Bool.not_eq_true]
      simpa [List.all_eq_true] using hnd
    have b3 : (j.forms.any fun f => decide (f.state = State.PROCESSING)) = false := by
      rw [← Bool.not_eq_true]
      simpa [List.any_eq_true] using hnp
    simp [get_status_state, b1, b2, b3]

theorem c6_get_status_aggregation_witness :
    (mkJob [stForm State.FAULTED]).forms ≠ [] ∧
    (mkJob [stForm State.FAULTED]).get_status.state = State.FAULTED :=
  ⟨by decide,
   (c6_get_status_aggregation (mkJob [stForm State.FAULTED]) (by decide)).1
     (by decide)⟩

/-- C7 (code bug): `set_forms` was meant to drop duplicate task-type
names ("We don't allow the same interrogation type twice"), but
`seen_names` is never appended to, so the request
`["caption", "caption", "tags"]` creates three forms — `caption`
twice — instead of the specified two. -/
theorem c7_duplicates_not_dropped :
    (((mkJob []).set_forms
        [{ name := "caption", payload := none },
         { name := "caption", payload := none },
         { name := "tags", payload := none }] 0).map
      fun f => f.name) = ["caption", "caption", "tags"] ∧
    ((mkJob []).set_forms
        [{ name := "caption", payload := none },
         { name := "caption", payload := none },
         { name := "tags", payload := none }] 0).length = 3 :=
  ⟨rfl, rfl⟩

/-- C8: `abort` on a PROCESSING form logs the worker fault and the
aborted form exactly once, passes through FAULTED and ends WAITING with
the worker reference retained (and no kudos output exists on this
path); a second `abort` on the now-WAITING form is a no-op. -/
theorem c8_abort_reopens_slot (f : InterrogationsForms)
    (h : f.state = State.PROCESSING) :
    f.abort = ({ f with state := State.WAITING },
               { log_aborted_job := 1, log_aborted_interrogation := 1 },
               [State.FAULTED, State.WAITING]) ∧
    ({ f with state := State.WAITING } : InterrogationsForms).worker_id =
      f.worker_id ∧
    ({ f with state := State.WAITING } : InterrogationsForms).abort =
      ({ f with state := State.WAITING },
       { log_aborted_job := 0, log_aborted_interrogation := 0 }, []) := by
  refine ⟨by simp [InterrogationsForms.abort, h], rfl, ?_⟩
  simp [InterrogationsForms.abort]

theorem c8_abort_reopens_slot_witness :
    processingForm.state = State.PROCESSING ∧
    processingForm.abort =
      ({ processingForm with state := State.WAITING },
       { log_aborted_job := 1, log_aborted_interrogation := 1 },
       [State.FAULTED, State.WAITING]) :=
  ⟨rfl, (c8_abort_reopens_slot processingForm rfl).1⟩

/-- C9 (code bug): `is_completed` never returns the specified boolean —
its first statement reads `self.FAULTED`, an attribute `Interrogation`
does not define, so it raises `AttributeError` on every job (and
`needs_interrogation` likewise reads `self.form` instead of
`self.forms`). -/
theorem c9_is_completed_raises :
    (mkJob [doneForm]).is_completed =
      Except.error (PyError.attributeError "FAULTED") ∧
    (mkJob [doneForm]).needs_interrogation =
      Except.error (PyError.attributeError "form") :=
  ⟨rfl, rfl⟩

/-- C10: `is_stale` returns a value exactly when the state is terminal
(FAULTED, CANCELLED or DONE) or the claim-expiry is set; on a freshly
created, never-claimed WAITING form (claim-expiry still at its NULL
column default) it reaches the `now > expiry` comparison and the error
branch (Python `TypeError`) fires. -/
theorem c10_is_stale_partiality :
    (∀ (f : InterrogationsForms) (ttl now : Nat),
      (∃ b, f.is_stale ttl now = Except.ok b) ↔
        (f.state = State.FAULTED ∨ f.state = State.CANCELLED ∨
          f.state = State.DONE ∨ f.expiry.isSome = true)) ∧
    freshForm.is_stale 0 0 =
      Except.error
        (PyError.typeError "unsupported comparison datetime > NoneType") := by
  refine ⟨?_, rfl⟩
  intro f ttl now
  cases hs : f.state <;> cases he : f.expiry <;>
    simp [InterrogationsForms.is_stale, hs, he]
